import Mathlib

/-!
Verification development for the `remote-file-agent` log-downloader MCP server
(`scripts/log_downloader_mcp.py`).

The Python program is shallowly embedded:
* remote RPC calls (`select_device`, `check_path`, `get_download_link`), the
  HTTP artifact fetch and the local filesystem are modelled as oracle
  functions supplied in `Gateway`/`FS` records; a raised Python exception is
  an `Except.error` carrying the exception text;
* JSON values are modelled by the inductive `JVal`; a Python `dict` is the
  association list of its fields, so an absent key is simply a missing entry;
* `ntpath.join` (Windows-style path joining, used for the remote paths) is
  modelled faithfully after CPython `ntpath.splitroot`/`ntpath.join`;
* `datetime.now()` is abstracted: the formatted target date string
  (`strftime("%Y-%m-%d")` of `now - timedelta(days=days_ago)`) is passed as
  an explicit parameter.
-/

set_option autoImplicit false

namespace LogMCP

/-! ### Windows path model (CPython `ntpath`) -/

/-- A Windows path separator (`ntpath.sep`/`ntpath.altsep`). -/
def isSep (c : Char) : Bool := c = '\\' || c = '/'

/-- Index (absolute, `≥ start`) of the first separator of `l`, as in
`str.find(sep, start)` after separator normalisation. -/
def findSepIdx : List Char → Nat → Option Nat
  | [], _ => none
  | c :: rest, 0 => if isSep c then some 0 else (findSepIdx rest 0).map (· + 1)
  | _ :: rest, n + 1 => (findSepIdx rest n).map (· + 1)

/-- Test for the extended UNC prefix: `normp[:8].upper() == '\\\\?\\UNC\\'`. -/
def isUncExtPrefix : List Char → Bool
  | a :: b :: c :: d :: e :: f :: g :: h :: _ =>
    isSep a && isSep b && c = '?' && isSep d &&
      e.toUpper = 'U' && f.toUpper = 'N' && g.toUpper = 'C' && isSep h
  | _ => false

/-- The UNC branch of `ntpath.splitroot` (input starts with two separators). -/
def uncSplit (p : List Char) : List Char × List Char × List Char :=
  let start := if isUncExtPrefix p then 8 else 2
  match findSepIdx p start with
  | none => (p, [], [])
  | some i =>
    match findSepIdx p (i + 1) with
    | none => (p, [], [])
    | some j => (p.take j, (p.drop j).take 1, p.drop (j + 1))

/-- CPython `ntpath.splitroot`: split a Windows path into
`(drive, root, tail)` with `drive ++ root ++ tail = p`. -/
def splitrootL (p : List Char) : List Char × List Char × List Char :=
  match p with
  | [] => ([], [], [])
  | [c1] => if isSep c1 then ([], [c1], []) else ([], [], [c1])
  | c1 :: c2 :: rest2 =>
    if isSep c1 then
      if isSep c2 then uncSplit (c1 :: c2 :: rest2)
      else ([], [c1], c2 :: rest2)
    else if c2 = ':' then
      match rest2 with
      | [] => ([c1, c2], [], [])
      | c3 :: rest3 =>
        if isSep c3 then ([c1, c2], [c3], rest3) else ([c1, c2], [], c3 :: rest3)
    else ([], [], c1 :: c2 :: rest2)

/-- Does the list end in a separator (`result_path[-1] in seps`)? -/
def sepEnd (l : List Char) : Bool :=
  match l.getLast? with
  | some c => isSep c
  | none => false

/-- Does the list end in `':'` or a separator (`result_drive[-1] in ':\\/'`)? -/
def colonSepEnd (l : List Char) : Bool :=
  match l.getLast? with
  | some c => c = ':' || isSep c
  | none => false

/-- `str.lower`, character-wise (ASCII suffices for the paths handled here). -/
def lowerL (l : List Char) : List Char := l.map Char.toLower

/-- One iteration of the loop in CPython `ntpath.join`, folding the next
component `q` into the accumulated `(drive, root, path)`. -/
def joinOneL (st : List Char × List Char × List Char) (q : List Char) :
    List Char × List Char × List Char :=
  let (d, r, pa) := st
  let (qd, qr, qp) := splitrootL q
  if qr ≠ [] then
    ((if qd ≠ [] ∨ d = [] then qd else d), qr, qp)
  else if qd ≠ [] ∧ qd ≠ d then
    (if lowerL qd ≠ lowerL d then (qd, ([] : List Char), qp)
     else (qd, r, pa ++ (if pa ≠ [] ∧ sepEnd pa = false then ['\\'] else []) ++ qp))
  else (d, r, pa ++ (if pa ≠ [] ∧ sepEnd pa = false then ['\\'] else []) ++ qp)

/-- CPython `ntpath.join` on character lists. -/
def ntjoinL (base : List Char) (comps : List (List Char)) : List Char :=
  let st := comps.foldl joinOneL (splitrootL base)
  if st.2.2 ≠ [] ∧ st.2.1 = [] ∧ st.1 ≠ [] ∧ colonSepEnd st.1 = false then
    st.1 ++ '\\' :: st.2.2
  else st.1 ++ st.2.1 ++ st.2.2

/-- `ntpath.join(base, *comps)`. -/
def ntjoin (base : String) (comps : List String) : String :=
  String.mk (ntjoinL base.data (comps.map String.data))

/-- Python `s.rstrip("/\\")`. -/
def rstripSepsL (l : List Char) : List Char :=
  (l.reverse.dropWhile (fun c => isSep c)).reverse

/-- Python `s.rstrip("/\\")` on strings. -/
def rstripSeps (s : String) : String := String.mk (rstripSepsL s.data)

/-! ### Python string helpers -/

/-- Python substring test `needle in hay`. -/
def strContainsSub (hay needle : String) : Bool :=
  hay.data.tails.any (fun t => needle.data.isPrefixOf t)

/-- Fuel-driven worker for Python `str.replace` (all non-overlapping
occurrences, scanning left to right). The fuel is the length of the haystack,
which suffices because every step consumes at least one character; the
patterns used by the program are never empty. -/
def replaceAllAux (pat rep : List Char) : Nat → List Char → List Char
  | 0, l => l
  | Nat.succ n, l =>
    match l with
    | [] => []
    | c :: rest =>
      if pat ≠ [] ∧ pat.isPrefixOf l then rep ++ replaceAllAux pat rep n (l.drop pat.length)
      else c :: replaceAllAux pat rep n rest

/-- Python `s.replace(pat, rep)`. -/
def strReplace (s pat rep : String) : String :=
  String.mk (replaceAllAux pat.data rep.data s.data.length s.data)

/-- Python `local_path.lower().endswith(".zip")`. -/
def endsWithZipLower (s : String) : Bool :=
  ".zip".data.isSuffixOf (lowerL s.data)

/-! ### JSON values -/

/-- A JSON value, the result of `json.loads` / the payload of `json.dumps`.
An object is the association list of its fields. -/
inductive JVal where
  | null
  | bool (b : Bool)
  | num (n : Int)
  | str (s : String)
  | arr (elems : List JVal)
  | obj (fields : List (String × JVal))

/-- `d[k]` / `d.get(k)` on an object's field list: the first binding of `k`. -/
def lookupField : List (String × JVal) → String → Option JVal
  | [], _ => none
  | (k', v) :: rest, k => if k' = k then some v else lookupField rest k

/-- Python truthiness of a JSON value (`if not x`). -/
def pyTruthy : JVal → Bool
  | .null => false
  | .bool b => b
  | .num n => n != 0
  | .str s => !s.isEmpty
  | .arr l => !l.isEmpty
  | .obj f => !f.isEmpty

/-- Truthiness of `d.get(k)`: an absent key yields `None`, which is falsy. -/
def truthyOpt : Option JVal → Bool
  | none => false
  | some v => pyTruthy v

/-- Python `x == 0` for a JSON value (`True == 1` and `False == 0` in Python;
`None == 0` is `False`; strings and containers never equal `0`). -/
def pyEqZero : JVal → Bool
  | .num n => n == 0
  | .bool b => !b
  | _ => false

/-! ### The orchestrator (`LogDownloaderMCP.download_daily_logs`) -/

/-- A device as returned by `select_device`. The program only reads
`device.get("allowed_roots", [])`, a list of root path strings; an absent key
behaves like the empty list. -/
structure Device where
  allowed_roots : List String

/-- The remote-gateway oracle: the observable outcome of each RPC the
orchestrator issues. `Except.error e` models the call raising a Python
exception with text `e` (transport failure, HTTP error, or JSON-RPC error).
`check_path` and `get_download_link` yield the decoded response dict as a
field list. -/
structure Gateway where
  select_device : String → Except String Device
  check_path : String → Except String (List (String × JVal))
  get_download_link : List String → String → Except String (List (String × JVal))

/-- The local-host oracle: outcomes of filesystem and HTTP-download effects.
`osJoin` abstracts the host's `os.path.join` (two arguments), `mkdirs` models
`os.makedirs`, `fetch` models the `urllib.request.urlopen` of a download URL
together with writing the body to disk, `isDir` models `os.path.isdir`, and
`stemOfBasename` abstracts `os.path.splitext(os.path.basename(p))[0]`. -/
structure FS where
  mkdirs : String → Except String Unit
  osJoin : String → String → String
  fetch : String → Except String Unit
  isDir : String → Bool
  stemOfBasename : String → String

/-- One per-log-kind result dict appended to `results` in
`download_daily_logs`. A `none` field models an absent key. `local_path` and
`extracted_dir` are present-with-`null` (`some none`) when the download step
failed. -/
structure RResult where
  log_type : String
  date : String
  path : String
  exists' : Option Bool := none
  skipped : Option Bool := none
  message : Option String := none
  error : Option String := none
  download_url : Option String := none
  file_name : Option JVal := none
  file_size : Option JVal := none
  compressed : Option JVal := none
  expires_at : Option JVal := none
  local_path : Option (Option String) := none
  extracted_dir : Option (Option String) := none

/-- The spec's `Skipped` state: the result dict carries `"skipped": True`. -/
def RResult.isSkipped (r : RResult) : Bool := r.skipped == some true

/-- The spec's `Failed` state: the result dict carries an `"error"` key. -/
def RResult.isFailed (r : RResult) : Bool := r.error.isSome

/-- `LogDownloaderMCP._fix_download_url`: replace `0.0.0.0` with the real
host extracted from `MCP_URL`. -/
def fix_download_url (host url : String) : String :=
  if strContainsSub url "0.0.0.0" then strReplace url "0.0.0.0" host else url

/-- `self._fix_download_url(original_download_url)` applied to the raw JSON
value read from `link_info["download_url"]`: on a non-string the substring
test `"0.0.0.0" in url` raises `TypeError`. -/
def fixUrlVal (host : String) (v : JVal) : Except String String :=
  match v with
  | .str url => .ok (fix_download_url host url)
  | _ => .error "TypeError: argument of type is not iterable"

/-- `LogDownloaderMCP._download_file_locally(download_url, save_dir, filename)`.
Returns the outcome (`ok` carries the local save path) paired with the list
of URLs actually fetched over HTTP. The filename is the raw JSON value read
from `link_info["file_name"]`: a non-string makes `os.path.join` raise before
any fetch. Zip auto-extraction (`_extract_zip`) catches all of its own
exceptions and only touches the filesystem, so it cannot change the outcome;
it is absorbed into the `FS` oracle. -/
def download_file_locally (host : String) (fs : FS) (url save_dir : String)
    (fnameVal : JVal) : Except String String × List String :=
  match fs.mkdirs save_dir with
  | .error e => (.error e, [])
  | .ok _ =>
    match fnameVal with
    | .str filename =>
      let save_path := fs.osJoin save_dir filename
      let fixed := fix_download_url host url
      match fs.fetch fixed with
      | .error e => (.error e, [fixed])
      | .ok _ => (.ok save_path, [fixed])
    | _ => (.error "TypeError: join argument must be str", [])

/-- The remote path derived for one requested log kind (lines 274-286):
`client` and `backend` produce a path, any other kind hits `continue`. -/
def derive_path (base date : String) (days_ago : Nat) (log_type : String) :
    Option String :=
  if log_type = "client" then some (ntjoin base ["Client", "logs", date])
  else if log_type = "backend" then
    if days_ago ≥ 1 then some (ntjoin base ["Backend", "log", date ++ ".zip"])
    else some (ntjoin base ["Backend", "log", date])
  else none

/-- The result appended by the outer `except` handler (lines 379-399):
backend kinds degrade to a skipped record, client kinds to an error record. -/
def errorResult (log_type date path e : String) : RResult :=
  if log_type = "backend" then
    { log_type := log_type, date := date, path := path, skipped := some true,
      message := some ("Backend log error, skipped: " ++ e) }
  else
    { log_type := log_type, date := date, path := path, error := some e }

/-- The body of the `for log_type in log_types` loop of `download_daily_logs`
for one kind: the result dict appended (if any) paired with the download URLs
fetched while processing this kind. `host` is `self._mcp_host`, `download_dir`
is `self.download_dir`, `base` is the stripped first allowed root and `date`
the formatted target date. -/
def processKind (gw : Gateway) (fs : FS) (host download_dir device_name base date : String)
    (days_ago : Nat) (log_type : String) : Option RResult × List String :=
  match derive_path base date days_ago log_type with
  | none => (none, [])
  | some path =>
    match gw.check_path path with
    | .error e => (some (errorResult log_type date path e), [])
    | .ok path_info =>
      if truthyOpt (lookupField path_info "exists") = false then
        if log_type = "backend" then
          (some { log_type := log_type, date := date, path := path,
                  exists' := some false, skipped := some true,
                  message := some "Backend log does not exist, skipped" }, [])
        else
          (some { log_type := log_type, date := date, path := path,
                  exists' := some false, error := some "Path does not exist" }, [])
      else
        match gw.get_download_link [path] (log_type ++ "-logs-" ++ date) with
        | .error e => (some (errorResult log_type date path e), [])
        | .ok link_info =>
          match lookupField link_info "download_url" with
          | none => (some (errorResult log_type date path "KeyError: download_url"), [])
          | some odu =>
            if pyEqZero ((lookupField link_info "file_size").getD (.num 0)) then
              (some { log_type := log_type, date := date, path := path,
                      exists' := some true,
                      error := some "Directory exists but has no log files (file_size=0)",
                      file_size := some (.num 0) }, [])
            else
              match fixUrlVal host odu with
              | .error e => (some (errorResult log_type date path e), [])
              | .ok download_url =>
                let safe_device := strReplace (strReplace device_name "/" "_") "\\" "_"
                let local_dir := fs.osJoin (fs.osJoin download_dir safe_device) date
                match lookupField link_info "file_name" with
                | none =>
                  -- The f-string on line 348 reads `link_info['file_name']` inside the
                  -- inner try, whose handler swallows the KeyError; the result dict on
                  -- line 372 re-reads it and that KeyError reaches the outer handler.
                  (some (errorResult log_type date path "KeyError: file_name"), [])
                | some fnameVal =>
                  let dl := download_file_locally host fs download_url local_dir fnameVal
                  let lp_ed : Option String × Option String :=
                    match dl.1 with
                    | .error _ => (none, none)
                    | .ok lp =>
                      if !lp.isEmpty && endsWithZipLower lp then
                        let ped := fs.osJoin local_dir (fs.stemOfBasename lp)
                        (some lp, if fs.isDir ped then some ped else none)
                      else (some lp, none)
                  (some (match lookupField link_info "file_size",
                               lookupField link_info "compressed",
                               lookupField link_info "expires_at" with
                    | some fsz, some cmp, some exp =>
                      { log_type := log_type, date := date, path := path,
                        exists' := some true,
                        download_url := some download_url,
                        file_name := some fnameVal, file_size := some fsz,
                        compressed := some cmp, expires_at := some exp,
                        local_path := some lp_ed.1,
                        extracted_dir := some lp_ed.2 }
                    | _, _, _ => errorResult log_type date path "KeyError"), dl.2)

/-- `LogDownloaderMCP.download_daily_logs(device_name, days_ago, log_types)`.
Returns the ordered `results` list paired with the trace of download URLs
fetched, each tagged with the log kind being processed at the time. An
`Except.error` is the whole call raising. `date` abstracts
`(datetime.now() - timedelta(days=days_ago)).strftime("%Y-%m-%d")`. -/
def download_daily_logs (gw : Gateway) (fs : FS) (host download_dir : String)
    (device_name : String) (days_ago : Nat) (log_types : Option (List String))
    (date : String) : Except String (List RResult × List (String × String)) :=
  let lts := log_types.getD ["client", "backend"]
  match gw.select_device device_name with
  | .error e => .error e
  | .ok device =>
    match device.allowed_roots with
    | [] => .error "Device has no allowed_roots configured"
    | root :: _ =>
      let base := rstripSeps root
      .ok (lts.filterMap
             (fun lt => (processKind gw fs host download_dir device_name base date days_ago lt).1),
           (lts.map
             (fun lt => (processKind gw fs host download_dir device_name base date days_ago lt).2.map
               (fun u => (lt, u)))).flatten)

/-! ### The RPC transport client (`RemoteFileClient._call_rpc`) -/

/-- The response-handling tail of `RemoteFileClient._call_rpc` (lines 113-118),
applied to the decoded JSON body of a 2xx HTTP response:
`if "error" in result: raise ...; return result.get("result")`.
`Except.error` carries the surfaced error payload (for a JSON-RPC error
object the value of the `error` field; for the pathological non-object bodies
a string naming the Python exception raised — the interpolated exception
texts are abbreviated). -/
def call_rpc_handle (body : JVal) : Except JVal JVal :=
  match body with
  | .obj fields =>
    match lookupField fields "error" with
    | some payload => .error payload
    | none => .ok ((lookupField fields "result").getD .null)
  | .str s =>
    -- `"error" in s` is a substring test on strings; both branches raise.
    if strContainsSub s "error" then .error (.str "TypeError: string indices")
    else .error (.str "AttributeError: str has no attribute get")
  | .arr l =>
    -- `"error" in l` is list membership, comparing elements to the string.
    if l.any (fun v => match v with | .str t => t = "error" | _ => false) then
      .error (.str "TypeError: list indices")
    else .error (.str "AttributeError: list has no attribute get")
  | _ => .error (.str "TypeError: argument of type is not iterable")

/-! ### The MCP dispatcher (`handle_mcp_request`) and stdio loop -/

/-- The effectful backends the dispatcher's `tools/call` branch invokes, and
the JSON serializer used to render a tool result into the MCP text block.
`list_devices` takes the optional `device_name_filter` argument,
`download_daily_logs` takes the raw `device_name`, `days_ago` (defaulted to
`0`) and optional `log_types` arguments; each returns the JSON-able tool
result or the exception it raised. -/
structure ToolBackend where
  list_devices : Option JVal → Except String JVal
  download_daily_logs : JVal → JVal → Option JVal → Except String JVal
  dumps : JVal → String

/-- The static `initialize` result (lines 412-421). -/
def initializeResult : JVal :=
  .obj [("protocolVersion", .str "2024-11-05"),
        ("capabilities", .obj [("tools", .obj [])]),
        ("serverInfo", .obj [("name", .str "remote-log-downloader"),
                             ("version", .str "1.0.0")])]

/-- The static `tools/list` result (lines 425-466). -/
def toolsListResult : JVal :=
  .obj [("tools", .arr
    [.obj [("name", .str "list_devices"),
           ("description", .str "列出所有在线设备"),
           ("inputSchema", .obj
             [("type", .str "object"),
              ("properties", .obj
                [("device_name_filter", .obj
                   [("type", .str "string"),
                    ("description", .str "Optional device name filter (fuzzy matching, e.g. 扬州)")])])])],
     .obj [("name", .str "download_daily_logs"),
           ("description", .str "Download device logs for a specific date. Files are saved locally and local_path is returned so the AI can read them directly."),
           ("inputSchema", .obj
             [("type", .str "object"),
              ("properties", .obj
                [("device_name", .obj
                   [("type", .str "string"),
                    ("description", .str "Device name (supports fuzzy matching, e.g. 西小口店)")]),
                 ("days_ago", .obj
                   [("type", .str "integer"),
                    ("description", .str "Number of days ago (0=today, 1=yesterday, 2=day before yesterday, etc.)"),
                    ("default", .num 0)]),
                 ("log_types", .obj
                   [("type", .str "array"),
                    ("items", .obj [("type", .str "string"),
                                    ("enum", .arr [.str "client", .str "backend"])]),
                    ("description", .str "Types of logs to download"),
                    ("default", .arr [.str "client", .str "backend"])])]),
              ("required", .arr [.str "device_name"])])]])]

/-- Wrap a tool result in the MCP content envelope (lines 486-493). -/
def wrapContent (tb : ToolBackend) (r : JVal) : JVal :=
  .obj [("content", .arr [.obj [("type", .str "text"), ("text", .str (tb.dumps r))]])]

/-- The `tools/call` branch (lines 468-493): look up the tool name, extract
its arguments and invoke it. Reading a field of a non-object (`params.get`,
`tool_params[...]`) raises inside the dispatcher's `try`, so it surfaces as
an `Except.error` here (exception texts abbreviated). -/
def dispatchToolsCall (tb : ToolBackend) (params : JVal) : Except String JVal :=
  match params with
  | .obj pf =>
    let args := (lookupField pf "arguments").getD (.obj [])
    match lookupField pf "name" with
    | some (.str "list_devices") =>
      (match args with
       | .obj af => (tb.list_devices (lookupField af "device_name_filter")).map (wrapContent tb)
       | _ => .error "AttributeError: object has no attribute get")
    | some (.str "download_daily_logs") =>
      (match args with
       | .obj af =>
         match lookupField af "device_name" with
         | none => .error "KeyError: device_name"
         | some dn =>
           (tb.download_daily_logs dn ((lookupField af "days_ago").getD (.num 0))
             (lookupField af "log_types")).map (wrapContent tb)
       | _ => .error "TypeError: argument of type is not subscriptable")
    | _ => .error "Unknown tool"
  | _ => .error "AttributeError: object has no attribute get"

/-- The JSON-RPC response envelope built on lines 498-512: a `result`
envelope on success, a `-32603` error envelope when the `try` body raised;
both carry the request id. -/
def envelope (request_id : JVal) : Except String JVal → JVal
  | .ok result =>
    .obj [("jsonrpc", .str "2.0"), ("id", request_id), ("result", result)]
  | .error m =>
    .obj [("jsonrpc", .str "2.0"), ("id", request_id),
          ("error", .obj [("code", .num (-32603)), ("message", .str m)])]

/-- `LogDownloaderMCP.handle_mcp_request(request)`: dispatch one decoded
request and build the JSON-RPC response envelope. The three `request.get`
reads on lines 405-407 sit before the `try`, so a non-object request raises
out of this function (`Except.error`); everything after is caught and turned
into an error envelope carrying the same request id. -/
def handle_mcp_request (tb : ToolBackend) (request : JVal) : Except String JVal :=
  match request with
  | .obj fields =>
    let params := (lookupField fields "params").getD (.obj [])
    let request_id := (lookupField fields "id").getD .null
    let body : Except String JVal :=
      match lookupField fields "method" with
      | some (.str "initialize") => .ok initializeResult
      | some (.str "tools/list") => .ok toolsListResult
      | some (.str "tools/call") => dispatchToolsCall tb params
      | _ => .error "Unknown method"
    .ok (envelope request_id body)
  | _ => .error "AttributeError: object has no attribute get"

/-- One line of input to the stdio loop, represented by its `json.loads`
outcome: `Except.error m` is a line that failed to parse, with exception
text `m`. -/
abbrev InLine := Except String JVal

/-- The `-32700` error response written by the loop's `except` handler. -/
def parseErrorResp (m : String) : JVal :=
  .obj [("jsonrpc", .str "2.0"), ("id", .null),
        ("error", .obj [("code", .num (-32700)), ("message", .str ("Parse error: " ++ m))])]

/-- One iteration of `run_stdio_server` (lines 520-553): parse the line,
dispatch it, and on any exception write the parse-error response instead. -/
def stdioStep (tb : ToolBackend) (line : InLine) : JVal :=
  match line with
  | .error m => parseErrorResp m
  | .ok request =>
    match handle_mcp_request tb request with
    | .ok response => response
    | .error m => parseErrorResp m

/-- `LogDownloaderMCP.run_stdio_server`: read lines until EOF, writing one
response line per input line; errors never terminate the loop. -/
def run_stdio_server (tb : ToolBackend) (lines : List InLine) : List JVal :=
  lines.map (stdioStep tb)

/-- The identifier a request carries: `request.get("id")` for an object
(absent key gives `null`); a non-object request carries none, which the
program reports as `null`. -/
def requestId : JVal → JVal
  | .obj fields => (lookupField fields "id").getD .null
  | _ => .null

/-- The side condition under which `ntpath.join` inserts a separator between
the (stripped) base and the first component: the base must have a nonempty
tail after splitting off any drive and root, or a drive not ending in a
colon. It fails exactly for the empty base and for bare drive specifiers
such as `C:`, where `ntpath.join` inserts no separator. -/
def goodBase (base : String) : Prop :=
  (splitrootL base.data).2.2 ≠ []
  ∨ ((splitrootL base.data).1 ≠ [] ∧ colonSepEnd (splitrootL base.data).1 = false)

instance (base : String) : Decidable (goodBase base) := by
  unfold goodBase; infer_instance

/-- The identifier a response object carries. -/
def responseId : JVal → Option JVal
  | .obj fields => lookupField fields "id"
  | _ => none

/-- The `error.code` field of a response object, if any. -/
def responseErrorCode : JVal → Option JVal
  | .obj fields =>
    match lookupField fields "error" with
    | some (.obj ef) => lookupField ef "code"
    | _ => none
  | _ => none

/-! ### Concrete fixtures used by witness and counterexample runs -/

/-- A trivial tool backend used by concrete runs of the dispatcher. -/
def tbTrivial : ToolBackend where
  list_devices := fun _ => .ok .null
  download_daily_logs := fun _ _ _ => .ok .null
  dumps := fun _ => ""

/-- A local-host oracle where every effect succeeds. -/
def fsOk : FS where
  mkdirs := fun _ => .ok ()
  osJoin := fun a b => a ++ "\\" ++ b
  fetch := fun _ => .ok ()
  isDir := fun _ => false
  stemOfBasename := fun _ => ""

/-- A local-host oracle whose HTTP fetch fails. -/
def fsFetchFail : FS :=
  { fsOk with fetch := fun _ => .error "HTTP Error 500: Internal Server Error" }

/-- A gateway whose selected device has no configured allowed roots. -/
def gwNoRoots : Gateway where
  select_device := fun _ => .ok ⟨[]⟩
  check_path := fun _ => .ok []
  get_download_link := fun _ _ => .ok []

/-- A gateway for which every path check reports the path missing. -/
def gwAbsent : Gateway where
  select_device := fun _ => .ok ⟨["D:\\CXJPos"]⟩
  check_path := fun _ => .ok [("exists", .bool false)]
  get_download_link := fun _ _ => .ok []

/-- The gateway of the C3/C6 runs: the path exists and link resolution
succeeds with a `0.0.0.0` download URL. -/
def gwLinkOk : Gateway where
  select_device := fun _ => .ok ⟨["D:\\CXJPos"]⟩
  check_path := fun _ => .ok [("exists", .bool true)]
  get_download_link := fun _ _ => .ok
    [("download_url", .str "http://0.0.0.0:8080/files/1"),
     ("file_name", .str "2024-01-15.zip"),
     ("file_size", .num 1024),
     ("compressed", .bool true),
     ("expires_at", .str "2024-01-16T00:00:00Z")]

/-- Witness for the amended C3 on a concrete run whose link resolution
raises. -/
def gwLinkErr : Gateway :=
  { gwLinkOk with get_download_link := fun _ _ => .error "RPC error: timeout" }

/-- The gateway of the C4 witness run: the path exists but the returned
descriptor reports `file_size: 0`. -/
def gwSizeZero : Gateway :=
  { gwLinkOk with get_download_link := fun _ _ => Except.ok [("download_url", JVal.str "http://0.0.0.0:8080/files/1"), ("file_size", JVal.num 0)] }

/-- The gateway of the C10 counterexample: `get_download_link` answers with
an empty object — no `file_size` field and no `download_url` either. -/
def gwEmptyLink : Gateway :=
  { gwLinkOk with get_download_link := fun _ _ => .ok [] }

/-- The gateway of the C10 amended-witness run: a `download_url` is present
but `file_size` is absent. -/
def gwNoSize : Gateway :=
  { gwLinkOk with get_download_link := fun _ _ => Except.ok [("download_url", JVal.str "http://0.0.0.0:8080/files/1")] }

/-- The client result in the C1 witness run. -/
def c1ClientRec : RResult :=
  { log_type := "client", date := "2024-01-15",
    path := "D:\\CXJPos\\Client\\logs\\2024-01-15",
    exists' := some false, error := some "Path does not exist" }

/-- The backend result in the C1 witness run. -/
def c1BackendRec : RResult :=
  { log_type := "backend", date := "2024-01-15",
    path := "D:\\CXJPos\\Backend\\log\\2024-01-15",
    exists' := some false, skipped := some true,
    message := some "Backend log does not exist, skipped" }

/-- The record produced by the C3 counterexample run: the download step
failed, yet the result is the success-form record with a null `local_path`. -/
def c3DownloadErrRec : RResult :=
  { log_type := "backend", date := "2024-01-15",
    path := "D:\\CXJPos\\Backend\\log\\2024-01-15.zip",
    exists' := some true,
    download_url := some "http://gw.example.com:8080/files/1",
    file_name := some (.str "2024-01-15.zip"),
    file_size := some (.num 1024),
    compressed := some (.bool true),
    expires_at := some (.str "2024-01-16T00:00:00Z"),
    local_path := some none, extracted_dir := some none }

/-- The record produced by the C3 amended-witness run. -/
def c3LinkErrRec : RResult :=
  { log_type := "backend", date := "2024-01-15",
    path := "D:\\CXJPos\\Backend\\log\\2024-01-15.zip",
    skipped := some true,
    message := some "Backend log error, skipped: RPC error: timeout" }

/-- The record produced by the C4 witness run. -/
def c4EmptyRec : RResult :=
  { log_type := "backend", date := "2024-01-15",
    path := "D:\\CXJPos\\Backend\\log\\2024-01-15.zip",
    exists' := some true,
    error := some "Directory exists but has no log files (file_size=0)",
    file_size := some (.num 0) }

/-- The record produced by the C10 counterexample run: reading
`link_info["download_url"]` raises `KeyError` before the file-size check, so
the backend kind degrades to `Skipped`, not `Failed`. -/
def c10SkippedRec : RResult :=
  { log_type := "backend", date := "2024-01-15",
    path := "D:\\CXJPos\\Backend\\log\\2024-01-15.zip",
    skipped := some true,
    message := some "Backend log error, skipped: KeyError: download_url" }

/-- The success record of the C6 witness run (fetch succeeds). -/
def c6SuccessRec : RResult :=
  { log_type := "backend", date := "2024-01-15",
    path := "D:\\CXJPos\\Backend\\log\\2024-01-15.zip",
    exists' := some true,
    download_url := some "http://gw.example.com:8080/files/1",
    file_name := some (.str "2024-01-15.zip"),
    file_size := some (.num 1024),
    compressed := some (.bool true),
    expires_at := some (.str "2024-01-16T00:00:00Z"),
    local_path := some (some "C:\\logs\\store\\2024-01-15\\2024-01-15.zip"),
    extracted_dir := some none }

/-! ### Lemmas: dispatcher and stdio loop -/

lemma responseId_envelope (rid : JVal) (b : Except String JVal) :
    responseId (envelope rid b) = some rid := by
  cases b <;> rfl

lemma responseId_stdioStep_ok (tb : ToolBackend) (req : JVal) :
    responseId (stdioStep tb (.ok req)) = some (requestId req) := by
  cases req with
  | obj fields => simp [stdioStep, handle_mcp_request, requestId, responseId_envelope]
  | _ => rfl

/-- **C9.** `RemoteFileClient._call_rpc`, applied to a decoded JSON-RPC
response object: it raises exactly when the body has an `error` field
(surfacing the error payload as the exception content), otherwise it returns
the `result` field, and an absent `result` field yields the empty value
`null` rather than an exception. -/
theorem c9_call_rpc_error_iff (fields : List (String × JVal)) :
    ((∃ e, call_rpc_handle (.obj fields) = .error e) ↔
      (lookupField fields "error").isSome = true)
    ∧ (∀ payload, lookupField fields "error" = some payload →
        call_rpc_handle (.obj fields) = .error payload)
    ∧ (lookupField fields "error" = none →
        call_rpc_handle (.obj fields) = .ok ((lookupField fields "result").getD JVal.null))
    ∧ (lookupField fields "error" = none → lookupField fields "result" = none →
        call_rpc_handle (.obj fields) = .ok JVal.null) := by
  rcases h : lookupField fields "error" with _ | payload
  · refine ⟨by simp [call_rpc_handle, h], by simp [h], by simp [call_rpc_handle, h], ?_⟩
    intro _ h2
    simp [call_rpc_handle, h, h2]
  · refine ⟨by simp [call_rpc_handle, h], ?_, by simp [h], by simp [h]⟩
    intro p hp
    have hpp : payload = p := Option.some.inj hp
    subst hpp
    simp [call_rpc_handle, h]

/-- Witness for C9 at concrete response bodies. -/
theorem c9_call_rpc_error_iff_witness :
    call_rpc_handle (.obj [("error", .str "boom")]) = .error (.str "boom")
    ∧ call_rpc_handle (.obj [("result", .num 7)]) = .ok (.num 7)
    ∧ call_rpc_handle (.obj [("jsonrpc", .str "2.0")]) = .ok .null :=
  ⟨(c9_call_rpc_error_iff [("error", .str "boom")]).2.1 (.str "boom") rfl,
   (c9_call_rpc_error_iff [("result", .num 7)]).2.2.1 rfl,
   (c9_call_rpc_error_iff [("jsonrpc", .str "2.0")]).2.2.2 rfl rfl⟩

/-- **C8.** The stdio server loop: every input line produces exactly one
response; a line that parsed to a JSON value gets a response carrying the
same request identifier as the input (`null` for inputs without one); a line
that failed to parse gets the JSON-RPC parse-error response, whose code is
`-32700` and whose identifier is `null`; and the loop keeps processing every
subsequent line (one output per input, in order). -/
theorem c8_stdio_loop (tb : ToolBackend) (lines : List InLine) :
    (run_stdio_server tb lines).length = lines.length
    ∧ (∀ (i : Nat) (req : JVal), lines[i]? = some (Except.ok req) →
        ∃ resp, (run_stdio_server tb lines)[i]? = some resp
          ∧ responseId resp = some (requestId req))
    ∧ (∀ (i : Nat) (m : String), lines[i]? = some (Except.error m) →
        (run_stdio_server tb lines)[i]? = some (parseErrorResp m)
          ∧ responseId (parseErrorResp m) = some JVal.null
          ∧ responseErrorCode (parseErrorResp m) = some (.num (-32700))) := by
  refine ⟨by simp [run_stdio_server], ?_, ?_⟩
  · intro i req h
    refine ⟨stdioStep tb (.ok req), ?_, responseId_stdioStep_ok tb req⟩
    simp [run_stdio_server, List.getElem?_map, h]
  · intro i m h
    refine ⟨?_, rfl, rfl⟩
    simp [run_stdio_server, List.getElem?_map, h, stdioStep]

/-! ### Lemmas: orchestrator structure -/

variable {gw : Gateway} {fs : FS} {host dd dn base date : String} {da : Nat}

@[simp] lemma errorResult_log_type (lt d p e : String) :
    (errorResult lt d p e).log_type = lt := by
  unfold errorResult; split <;> rfl

@[simp] lemma errorResult_path (lt d p e : String) :
    (errorResult lt d p e).path = p := by
  unfold errorResult; split <;> rfl

lemma derive_path_valid_inv {lt p : String}
    (h : derive_path base date da lt = some p) : lt = "client" ∨ lt = "backend" := by
  by_cases h1 : lt = "client"
  · exact Or.inl h1
  · by_cases h2 : lt = "backend"
    · exact Or.inr h2
    · simp [derive_path, h1, h2] at h

lemma derive_path_some_of_valid (base date : String) (da : Nat) {lt : String}
    (h : lt = "client" ∨ lt = "backend") :
    ∃ p, derive_path base date da lt = some p := by
  rcases h with rfl | rfl
  · exact ⟨ntjoin base ["Client", "logs", date], by simp [derive_path]⟩
  · by_cases hda : 1 ≤ da
    · exact ⟨ntjoin base ["Backend", "log", date ++ ".zip"], by simp [derive_path, hda]⟩
    · exact ⟨ntjoin base ["Backend", "log", date], by simp [derive_path, hda]⟩

lemma processKind_invalid {lt : String} (h1 : lt ≠ "client") (h2 : lt ≠ "backend") :
    processKind gw fs host dd dn base date da lt = (none, []) := by
  unfold processKind
  have hd : derive_path base date da lt = none := by simp [derive_path, h1, h2]
  rw [hd]

lemma processKind_fst_inv {lt : String} {r : RResult}
    (h : (processKind gw fs host dd dn base date da lt).1 = some r) :
    ∃ p, derive_path base date da lt = some p ∧ r.path = p ∧ r.log_type = lt := by
  unfold processKind at h
  rcases hd : derive_path base date da lt with _ | p
  · rw [hd] at h; simp at h
  · rw [hd] at h
    refine ⟨p, rfl, ?_⟩
    dsimp only at h
    repeat' split at h
    all_goals try dsimp only at h
    all_goals (injection h with h; subst h; constructor <;> simp)

lemma processKind_fst_ne_none {lt p : String}
    (hd : derive_path base date da lt = some p) :
    (processKind gw fs host dd dn base date da lt).1 ≠ none := by
  unfold processKind
  rw [hd]
  dsimp only
  repeat' split
  all_goals simp

lemma processKind_some_of_valid (gw : Gateway) (fs : FS)
    (host dd dn base date : String) (da : Nat) {lt : String}
    (h : lt = "client" ∨ lt = "backend") :
    ∃ r, (processKind gw fs host dd dn base date da lt).1 = some r ∧ r.log_type = lt := by
  obtain ⟨p, hd⟩ := derive_path_some_of_valid base date da h
  rcases hfst : (processKind gw fs host dd dn base date da lt).1 with _ | r
  · exact absurd hfst (processKind_fst_ne_none hd)
  · obtain ⟨p', _, _, hlog⟩ := processKind_fst_inv hfst
    exact ⟨r, rfl, hlog⟩

lemma results_map_log_type (lts : List String) :
    ((lts.filterMap (fun lt => (processKind gw fs host dd dn base date da lt).1)).map
        RResult.log_type)
      = lts.filter (fun t => t == "client" || t == "backend") := by
  induction lts with
  | nil => rfl
  | cons lt rest ih =>
    by_cases hv : lt = "client" ∨ lt = "backend"
    · obtain ⟨r, hr, hlog⟩ :=
        processKind_some_of_valid gw fs host dd dn base date da hv
      have hkeep : (lt == "client" || lt == "backend") = true := by
        rcases hv with rfl | rfl <;> simp
      simp [List.filterMap_cons, hr, List.filter_cons, hkeep, ih, hlog]
    · have h1 : lt ≠ "client" := fun h => hv (Or.inl h)
      have h2 : lt ≠ "backend" := fun h => hv (Or.inr h)
      have hnone : (processKind gw fs host dd dn base date da lt).1 = none := by
        rw [processKind_invalid h1 h2]
      have hdrop : (lt == "client" || lt == "backend") = false := by
        simp [h1, h2]
      simp [List.filterMap_cons, hnone, List.filter_cons, hdrop, ih]

lemma download_ok_inv {lts? : Option (List String)}
    {res : List RResult × List (String × String)}
    (hok : download_daily_logs gw fs host dd dn da lts? date = .ok res) :
    ∃ device root rest, gw.select_device dn = .ok device
      ∧ device.allowed_roots = root :: rest
      ∧ res.1 = (lts?.getD ["client", "backend"]).filterMap
          (fun lt => (processKind gw fs host dd dn (rstripSeps root) date da lt).1)
      ∧ res.2 = ((lts?.getD ["client", "backend"]).map
          (fun lt => (processKind gw fs host dd dn (rstripSeps root) date da lt).2.map
            (fun u => (lt, u)))).flatten := by
  rcases hs : gw.select_device dn with e | d
  · simp [download_daily_logs, hs] at hok
  · rcases hr : d.allowed_roots with _ | ⟨root, rest⟩
    · simp [download_daily_logs, hs, hr] at hok
    · simp only [download_daily_logs, hs, hr] at hok
      rcases hok with ⟨rfl⟩
      exact ⟨d, root, rest, rfl, hr, rfl, rfl⟩

lemma processKind_absent_backend {p : String} {pi : List (String × JVal)}
    (hd : derive_path base date da "backend" = some p)
    (hc : gw.check_path p = .ok pi)
    (ha : truthyOpt (lookupField pi "exists") = false) :
    processKind gw fs host dd dn base date da "backend" =
      (some { log_type := "backend", date := date, path := p, exists' := some false,
              skipped := some true,
              message := some "Backend log does not exist, skipped" }, []) := by
  simp [processKind, hd, hc, ha]

lemma processKind_absent_client {p : String} {pi : List (String × JVal)}
    (hd : derive_path base date da "client" = some p)
    (hc : gw.check_path p = .ok pi)
    (ha : truthyOpt (lookupField pi "exists") = false) :
    processKind gw fs host dd dn base date da "client" =
      (some { log_type := "client", date := date, path := p, exists' := some false,
              error := some "Path does not exist" }, []) := by
  simp [processKind, hd, hc, ha]

lemma processKind_link_error {lt p e : String} {pi : List (String × JVal)}
    (hd : derive_path base date da lt = some p)
    (hc : gw.check_path p = .ok pi)
    (hex : truthyOpt (lookupField pi "exists") = true)
    (hl : gw.get_download_link [p] (lt ++ "-logs-" ++ date) = .error e) :
    processKind gw fs host dd dn base date da lt =
      (some (errorResult lt date p e), []) := by
  simp [processKind, hd, hc, hex, hl]

lemma processKind_size_zero (gw : Gateway) (fs : FS) (host dd dn : String)
    {base date : String} {da : Nat}
    {lt p : String} {pi li : List (String × JVal)} {odu : JVal}
    (hd : derive_path base date da lt = some p)
    (hc : gw.check_path p = .ok pi)
    (hex : truthyOpt (lookupField pi "exists") = true)
    (hl : gw.get_download_link [p] (lt ++ "-logs-" ++ date) = .ok li)
    (hu : lookupField li "download_url" = some odu)
    (hz : pyEqZero ((lookupField li "file_size").getD (.num 0)) = true) :
    processKind gw fs host dd dn base date da lt =
      (some { log_type := lt, date := date, path := p, exists' := some true,
              error := some "Directory exists but has no log files (file_size=0)",
              file_size := some (.num 0) }, []) := by
  simp [processKind, hd, hc, hex, hl, hu, hz]

lemma mem_downloads_inv {lts : List String} {lt0 w : String}
    (h : (lt0, w) ∈ ((lts.map
        (fun lt => (processKind gw fs host dd dn base date da lt).2.map
          (fun u => (lt, u)))).flatten)) :
    lt0 ∈ lts ∧ w ∈ (processKind gw fs host dd dn base date da lt0).2 := by
  rw [List.mem_flatten] at h
  obtain ⟨L, hL, hmemL⟩ := h
  rw [List.mem_map] at hL
  obtain ⟨lt, hlt, rfl⟩ := hL
  rw [List.mem_map] at hmemL
  obtain ⟨u, hu, hequ⟩ := hmemL
  cases hequ
  exact ⟨hlt, hu⟩

/-- **C1.** When `check_path` reports a requested path absent, the result for
that kind is `Skipped` for `backend` (never `Failed`) and `Failed` with
reason "Path does not exist" for `client`. -/
theorem c1_absent_path_policy (gw : Gateway) (fs : FS)
    (host dd dn date : String) (da : Nat) (lts? : Option (List String))
    (res : List RResult × List (String × String))
    (hok : download_daily_logs gw fs host dd dn da lts? date = .ok res)
    (r : RResult) (hr : r ∈ res.1) (pi : List (String × JVal))
    (hc : gw.check_path r.path = .ok pi)
    (ha : truthyOpt (lookupField pi "exists") = false) :
    (r.log_type = "backend" →
      r.isSkipped = true ∧ r.isFailed = false
        ∧ r.message = some "Backend log does not exist, skipped")
    ∧ (r.log_type = "client" →
      r.isFailed = true ∧ r.isSkipped = false
        ∧ r.error = some "Path does not exist") := by
  obtain ⟨device, root, rest, hsel, hroots, hres1, hres2⟩ := download_ok_inv hok
  rw [hres1, List.mem_filterMap] at hr
  obtain ⟨lt, hmem, hf⟩ := hr
  obtain ⟨p, hd, hpath, hlog⟩ := processKind_fst_inv hf
  rw [hpath] at hc
  rcases derive_path_valid_inv hd with hclient | hbackend
  · subst hclient
    rw [processKind_absent_client hd hc ha] at hf
    have hrec := Option.some.inj hf
    subst hrec
    refine ⟨fun hx => absurd hx (by simp), fun _ => ⟨rfl, rfl, rfl⟩⟩
  · subst hbackend
    rw [processKind_absent_backend hd hc ha] at hf
    have hrec := Option.some.inj hf
    subst hrec
    refine ⟨fun _ => ⟨rfl, rfl, rfl⟩, fun hx => absurd hx (by simp)⟩

/-- Witness for C1 on a concrete run against a gateway reporting every path
absent. -/
theorem c1_absent_path_policy_witness :
    download_daily_logs gwAbsent fsOk "gw.example.com" "C:\\logs" "store" 0
        (some ["client", "backend"]) "2024-01-15"
      = .ok ([c1ClientRec, c1BackendRec], [])
    ∧ (c1BackendRec.isSkipped = true ∧ c1BackendRec.isFailed = false
        ∧ c1BackendRec.message = some "Backend log does not exist, skipped")
    ∧ (c1ClientRec.isFailed = true ∧ c1ClientRec.isSkipped = false
        ∧ c1ClientRec.error = some "Path does not exist") :=
  ⟨rfl,
   (c1_absent_path_policy gwAbsent fsOk "gw.example.com" "C:\\logs" "store"
      "2024-01-15" 0 (some ["client", "backend"]) ([c1ClientRec, c1BackendRec], [])
      rfl c1BackendRec (by simp) [("exists", .bool false)] rfl rfl).1 rfl,
   (c1_absent_path_policy gwAbsent fsOk "gw.example.com" "C:\\logs" "store"
      "2024-01-15" 0 (some ["client", "backend"]) ([c1ClientRec, c1BackendRec], [])
      rfl c1ClientRec (by simp) [("exists", .bool false)] rfl rfl).2 rfl⟩

lemma fix_not_contains {host url : String}
    (h : strContainsSub url "0.0.0.0" = false) :
    fix_download_url host url = url := by
  simp [fix_download_url, h]

lemma fix_contains {host url : String}
    (h : strContainsSub url "0.0.0.0" = true) :
    fix_download_url host url = strReplace url "0.0.0.0" host := by
  simp [fix_download_url, h]

lemma download_file_locally_snd (fs : FS) (host url dir : String) (v : JVal) :
    (download_file_locally host fs url dir v).2 = []
    ∨ (download_file_locally host fs url dir v).2 = [fix_download_url host url] := by
  unfold download_file_locally
  rcases hmk : fs.mkdirs dir with e | u
  · simp [hmk]
  · rcases v with _ | b | n | s | a | o
    case str =>
      rcases hfe : fs.fetch (fix_download_url host url) with e2 | u2 <;> simp [hmk, hfe]
    all_goals simp [hmk]

lemma processKind_snd_inv {lt w : String}
    (h : w ∈ (processKind gw fs host dd dn base date da lt).2) :
    ∃ p li url, derive_path base date da lt = some p
      ∧ gw.get_download_link [p] (lt ++ "-logs-" ++ date) = .ok li
      ∧ lookupField li "download_url" = some (.str url)
      ∧ w = fix_download_url host (fix_download_url host url) := by
  unfold processKind at h
  rcases hd : derive_path base date da lt with _ | p
  · rw [hd] at h; simp at h
  · rw [hd] at h
    dsimp only at h
    rcases hc : gw.check_path p with ec | pi
    · rw [hc] at h; simp at h
    · rw [hc] at h
      dsimp only at h
      by_cases hex : truthyOpt (lookupField pi "exists") = false
      · rw [if_pos hex] at h
        split at h <;> simp at h
      · rw [if_neg hex] at h
        rcases hl : gw.get_download_link [p] (lt ++ "-logs-" ++ date) with el | li
        · rw [hl] at h; simp at h
        · rw [hl] at h
          dsimp only at h
          rcases hu : lookupField li "download_url" with _ | odu
          · rw [hu] at h; simp at h
          · rw [hu] at h
            dsimp only at h
            by_cases hz : pyEqZero ((lookupField li "file_size").getD (.num 0)) = true
            · rw [if_pos hz] at h; simp at h
            · rw [if_neg hz] at h
              rcases odu with _ | b | n | url | a | o
              · dsimp only [fixUrlVal] at h; simp at h
              · dsimp only [fixUrlVal] at h; simp at h
              · dsimp only [fixUrlVal] at h; simp at h
              · dsimp only [fixUrlVal] at h
                rcases hfn : lookupField li "file_name" with _ | fn
                · rw [hfn] at h; simp at h
                · rw [hfn] at h
                  dsimp only at h
                  rcases download_file_locally_snd fs host (fix_download_url host url)
                      (fs.osJoin (fs.osJoin dd (strReplace (strReplace dn "/" "_") "\\" "_")) date) fn
                    with h0 | h1
                  · rw [h0] at h; simp at h
                  · rw [h1] at h
                    simp at h
                    exact ⟨p, li, url, rfl, hl, hu, h⟩
              · dsimp only [fixUrlVal] at h; simp at h
              · dsimp only [fixUrlVal] at h; simp at h

/-- **C3 (amended).** If an error occurs during link resolution for a kind
(the `get_download_link` call raises), the per-kind result is `Skipped` for
`backend` and `Failed` for `client`. (The original claim also covered errors
in the local download step; those are swallowed — see the counterexample.) -/
theorem c3_amended_link_error_policy (gw : Gateway) (fs : FS)
    (host dd dn date : String) (da : Nat) (lts? : Option (List String))
    (res : List RResult × List (String × String))
    (hok : download_daily_logs gw fs host dd dn da lts? date = .ok res)
    (r : RResult) (hr : r ∈ res.1) (pi : List (String × JVal))
    (hc : gw.check_path r.path = .ok pi)
    (hex : truthyOpt (lookupField pi "exists") = true)
    (e : String)
    (hl : gw.get_download_link [r.path] (r.log_type ++ "-logs-" ++ date) = .error e) :
    (r.log_type = "backend" →
      r.isSkipped = true ∧ r.isFailed = false
        ∧ r.message = some ("Backend log error, skipped: " ++ e))
    ∧ (r.log_type = "client" →
      r.isFailed = true ∧ r.isSkipped = false ∧ r.error = some e) := by
  obtain ⟨device, root, rest, hsel, hroots, hres1, hres2⟩ := download_ok_inv hok
  rw [hres1, List.mem_filterMap] at hr
  obtain ⟨lt, hmem, hf⟩ := hr
  obtain ⟨p, hd, hpath, hlog⟩ := processKind_fst_inv hf
  rw [hpath] at hc hl
  rw [hlog] at hl
  rw [processKind_link_error hd hc hex hl] at hf
  have hrec := Option.some.inj hf
  subst hrec
  rcases derive_path_valid_inv hd with hclient | hbackend
  · subst hclient
    refine ⟨fun hx => ?_, fun _ => ⟨rfl, rfl, rfl⟩⟩
    simp [errorResult] at hx
  · subst hbackend
    refine ⟨fun _ => ⟨rfl, rfl, rfl⟩, fun hx => ?_⟩
    simp [errorResult] at hx

/-- Counterexample to C3 as stated: the HTTP fetch for the backend artifact
raises, a download request was issued (and failed), yet the per-kind result
is neither `Skipped` nor `Failed` — the download error is swallowed and the
record merely carries `local_path: null`. -/
theorem c3_counterexample :
    download_daily_logs gwLinkOk fsFetchFail "gw.example.com" "C:\\logs" "store" 1
        (some ["backend"]) "2024-01-15"
      = .ok ([c3DownloadErrRec], [("backend", "http://gw.example.com:8080/files/1")])
    ∧ fsFetchFail.fetch "http://gw.example.com:8080/files/1"
        = .error "HTTP Error 500: Internal Server Error"
    ∧ c3DownloadErrRec.isSkipped = false
    ∧ c3DownloadErrRec.isFailed = false
    ∧ c3DownloadErrRec.local_path = some none :=
  ⟨rfl, rfl, rfl, rfl, rfl⟩

/-- Witness for C3 (amended): a failing `get_download_link` call for a
backend kind yields a skipped, non-failed result. -/
theorem c3_amended_link_error_policy_witness :
    download_daily_logs gwLinkErr fsOk "gw.example.com" "C:\\logs" "store" 1
        (some ["backend"]) "2024-01-15" = .ok ([c3LinkErrRec], [])
    ∧ c3LinkErrRec.isSkipped = true ∧ c3LinkErrRec.isFailed = false
    ∧ c3LinkErrRec.message = some "Backend log error, skipped: RPC error: timeout" :=
  ⟨rfl,
   ((c3_amended_link_error_policy gwLinkErr fsOk "gw.example.com" "C:\\logs" "store"
      "2024-01-15" 1 (some ["backend"]) ([c3LinkErrRec], []) rfl c3LinkErrRec
      (by simp) [("exists", .bool true)] rfl rfl "RPC error: timeout" rfl).1 rfl).1,
   ((c3_amended_link_error_policy gwLinkErr fsOk "gw.example.com" "C:\\logs" "store"
      "2024-01-15" 1 (some ["backend"]) ([c3LinkErrRec], []) rfl c3LinkErrRec
      (by simp) [("exists", .bool true)] rfl rfl "RPC error: timeout" rfl).1 rfl).2.1,
   ((c3_amended_link_error_policy gwLinkErr fsOk "gw.example.com" "C:\\logs" "store"
      "2024-01-15" 1 (some ["backend"]) ([c3LinkErrRec], []) rfl c3LinkErrRec
      (by simp) [("exists", .bool true)] rfl rfl "RPC error: timeout" rfl).1 rfl).2.2⟩

/-- **C4.** A `get_download_link` response carrying `file_size: 0` yields a
`Failed` result for that kind and no download request is ever issued for
that kind. -/
theorem c4_size_zero_no_download (gw : Gateway) (fs : FS)
    (host dd dn date : String) (da : Nat) (lts? : Option (List String))
    (res : List RResult × List (String × String))
    (hok : download_daily_logs gw fs host dd dn da lts? date = .ok res)
    (r : RResult) (hr : r ∈ res.1) (pi : List (String × JVal))
    (hc : gw.check_path r.path = .ok pi)
    (hex : truthyOpt (lookupField pi "exists") = true)
    (li : List (String × JVal))
    (hl : gw.get_download_link [r.path] (r.log_type ++ "-logs-" ++ date) = .ok li)
    (odu : JVal) (hu : lookupField li "download_url" = some odu)
    (hz : lookupField li "file_size" = some (.num 0)) :
    r.isFailed = true ∧ r.isSkipped = false
    ∧ r.error = some "Directory exists but has no log files (file_size=0)"
    ∧ r.file_size = some (.num 0)
    ∧ (∀ w, (r.log_type, w) ∈ res.2 → False) := by
  obtain ⟨device, root, rest, hsel, hroots, hres1, hres2⟩ := download_ok_inv hok
  rw [hres1, List.mem_filterMap] at hr
  obtain ⟨lt, hmem, hf⟩ := hr
  obtain ⟨p, hd, hpath, hlog⟩ := processKind_fst_inv hf
  rw [hpath] at hc hl
  rw [hlog] at hl
  have hz' : pyEqZero ((lookupField li "file_size").getD (.num 0)) = true := by
    rw [hz]; rfl
  have hpk := processKind_size_zero gw fs host dd dn hd hc hex hl hu hz'
  have htrace : ∀ w, (r.log_type, w) ∈ res.2 → False := by
    intro w hw
    rw [hres2] at hw
    obtain ⟨_, hw2⟩ := mem_downloads_inv hw
    rw [hlog, hpk] at hw2
    simp at hw2
  rw [hpk] at hf
  have hrec := Option.some.inj hf
  subst hrec
  exact ⟨rfl, rfl, rfl, rfl, htrace⟩

/-- Witness for C4: the concrete run emits the `Failed` record and fetches
nothing (the download trace of the run is empty). -/
theorem c4_size_zero_no_download_witness :
    download_daily_logs gwSizeZero fsOk "gw.example.com" "C:\\logs" "store" 1
        (some ["backend"]) "2024-01-15" = .ok ([c4EmptyRec], [])
    ∧ c4EmptyRec.isFailed = true ∧ c4EmptyRec.isSkipped = false
    ∧ c4EmptyRec.file_size = some (.num 0) :=
  ⟨rfl,
   (c4_size_zero_no_download gwSizeZero fsOk "gw.example.com" "C:\\logs" "store"
      "2024-01-15" 1 (some ["backend"]) ([c4EmptyRec], []) rfl c4EmptyRec (by simp)
      [("exists", .bool true)] rfl rfl
      [("download_url", .str "http://0.0.0.0:8080/files/1"), ("file_size", .num 0)]
      rfl (.str "http://0.0.0.0:8080/files/1") rfl rfl).1,
   (c4_size_zero_no_download gwSizeZero fsOk "gw.example.com" "C:\\logs" "store"
      "2024-01-15" 1 (some ["backend"]) ([c4EmptyRec], []) rfl c4EmptyRec (by simp)
      [("exists", .bool true)] rfl rfl
      [("download_url", .str "http://0.0.0.0:8080/files/1"), ("file_size", .num 0)]
      rfl (.str "http://0.0.0.0:8080/files/1") rfl rfl).2.1,
   (c4_size_zero_no_download gwSizeZero fsOk "gw.example.com" "C:\\logs" "store"
      "2024-01-15" 1 (some ["backend"]) ([c4EmptyRec], []) rfl c4EmptyRec (by simp)
      [("exists", .bool true)] rfl rfl
      [("download_url", .str "http://0.0.0.0:8080/files/1"), ("file_size", .num 0)]
      rfl (.str "http://0.0.0.0:8080/files/1") rfl rfl).2.2.2.1⟩

/-- **C10 (amended).** If the `get_download_link` response carries a
`download_url` but no `file_size` field at all, the kind is treated exactly
as if the file size were `0`: the same `Failed` record (reporting
`file_size: 0`) is emitted and no download is attempted, so the later
unconditional reads of `file_name`/`file_size` are never reached. (The
original claim, quantifying over every response without `file_size`, fails
when `download_url` is also missing — see the counterexample.) -/
theorem c10_amended_missing_file_size (gw : Gateway) (fs : FS)
    (host dd dn date : String) (da : Nat) (lts? : Option (List String))
    (res : List RResult × List (String × String))
    (hok : download_daily_logs gw fs host dd dn da lts? date = .ok res)
    (r : RResult) (hr : r ∈ res.1) (pi : List (String × JVal))
    (hc : gw.check_path r.path = .ok pi)
    (hex : truthyOpt (lookupField pi "exists") = true)
    (li : List (String × JVal))
    (hl : gw.get_download_link [r.path] (r.log_type ++ "-logs-" ++ date) = .ok li)
    (odu : JVal) (hu : lookupField li "download_url" = some odu)
    (hz : lookupField li "file_size" = none) :
    r.isFailed = true ∧ r.isSkipped = false
    ∧ r.error = some "Directory exists but has no log files (file_size=0)"
    ∧ r.file_size = some (.num 0)
    ∧ (∀ w, (r.log_type, w) ∈ res.2 → False) := by
  obtain ⟨device, root, rest, hsel, hroots, hres1, hres2⟩ := download_ok_inv hok
  rw [hres1, List.mem_filterMap] at hr
  obtain ⟨lt, hmem, hf⟩ := hr
  obtain ⟨p, hd, hpath, hlog⟩ := processKind_fst_inv hf
  rw [hpath] at hc hl
  rw [hlog] at hl
  have hz' : pyEqZero ((lookupField li "file_size").getD (.num 0)) = true := by
    rw [hz]; rfl
  have hpk := processKind_size_zero gw fs host dd dn hd hc hex hl hu hz'
  have htrace : ∀ w, (r.log_type, w) ∈ res.2 → False := by
    intro w hw
    rw [hres2] at hw
    obtain ⟨_, hw2⟩ := mem_downloads_inv hw
    rw [hlog, hpk] at hw2
    simp at hw2
  rw [hpk] at hf
  have hrec := Option.some.inj hf
  subst hrec
  exact ⟨rfl, rfl, rfl, rfl, htrace⟩

/-- Counterexample to C10 as stated: a response with no `file_size` field at
all (here the empty object) does not yield a `Failed` record for a backend
kind — the result is `Skipped`. -/
theorem c10_counterexample :
    download_daily_logs gwEmptyLink fsOk "gw.example.com" "C:\\logs" "store" 1
        (some ["backend"]) "2024-01-15" = .ok ([c10SkippedRec], [])
    ∧ lookupField [] "file_size" = none
    ∧ c10SkippedRec.isFailed = false
    ∧ c10SkippedRec.isSkipped = true :=
  ⟨rfl, rfl, rfl, rfl⟩

/-- Witness for C10 (amended) on a concrete run. -/
theorem c10_amended_missing_file_size_witness :
    download_daily_logs gwNoSize fsOk "gw.example.com" "C:\\logs" "store" 1
        (some ["backend"]) "2024-01-15" = .ok ([c4EmptyRec], [])
    ∧ c4EmptyRec.isFailed = true ∧ c4EmptyRec.file_size = some (.num 0) :=
  ⟨rfl,
   (c10_amended_missing_file_size gwNoSize fsOk "gw.example.com" "C:\\logs" "store"
      "2024-01-15" 1 (some ["backend"]) ([c4EmptyRec], []) rfl c4EmptyRec (by simp)
      [("exists", .bool true)] rfl rfl
      [("download_url", .str "http://0.0.0.0:8080/files/1")]
      rfl (.str "http://0.0.0.0:8080/files/1") rfl rfl).1,
   (c10_amended_missing_file_size gwNoSize fsOk "gw.example.com" "C:\\logs" "store"
      "2024-01-15" 1 (some ["backend"]) ([c4EmptyRec], []) rfl c4EmptyRec (by simp)
      [("exists", .bool true)] rfl rfl
      [("download_url", .str "http://0.0.0.0:8080/files/1")]
      rfl (.str "http://0.0.0.0:8080/files/1") rfl rfl).2.2.2.1⟩

/-- **C6.** Every download URL actually fetched during a run comes from the
link descriptor's `download_url` after host fixing: a URL without `0.0.0.0`
is fetched verbatim; a URL containing `0.0.0.0` is fetched with `0.0.0.0`
rewritten to the configured gateway host (the code applies the rewrite a
second time inside `_download_file_locally`, which is the identity as soon
as one rewrite removed every occurrence). -/
theorem c6_url_rewrite (gw : Gateway) (fs : FS)
    (host dd dn date : String) (da : Nat) (lts? : Option (List String))
    (res : List RResult × List (String × String))
    (hok : download_daily_logs gw fs host dd dn da lts? date = .ok res) :
    ∀ lt w, (lt, w) ∈ res.2 →
      ∃ p li url, gw.get_download_link [p] (lt ++ "-logs-" ++ date) = .ok li
        ∧ lookupField li "download_url" = some (.str url)
        ∧ w = fix_download_url host (fix_download_url host url)
        ∧ (strContainsSub url "0.0.0.0" = false → w = url)
        ∧ (strContainsSub url "0.0.0.0" = true →
            strContainsSub (strReplace url "0.0.0.0" host) "0.0.0.0" = false →
            w = strReplace url "0.0.0.0" host) := by
  intro lt w hw
  obtain ⟨device, root, rest, hsel, hroots, hres1, hres2⟩ := download_ok_inv hok
  rw [hres2] at hw
  obtain ⟨hmem, hw2⟩ := mem_downloads_inv hw
  obtain ⟨p, li, url, hd, hl, hu, hfix⟩ := processKind_snd_inv hw2
  refine ⟨p, li, url, hl, hu, hfix, ?_, ?_⟩
  · intro hnc
    rw [hfix, fix_not_contains hnc, fix_not_contains hnc]
  · intro hcc hnc2
    rw [hfix, fix_contains hcc, fix_not_contains hnc2]

/-- Witness for C6: in a concrete successful run the returned URL contained
`0.0.0.0` and the URL actually fetched is exactly its single rewrite. -/
theorem c6_url_rewrite_witness :
    download_daily_logs gwLinkOk fsOk "gw.example.com" "C:\\logs" "store" 1
        (some ["backend"]) "2024-01-15"
      = .ok ([c6SuccessRec], [("backend", "http://gw.example.com:8080/files/1")])
    ∧ "http://gw.example.com:8080/files/1"
        = strReplace "http://0.0.0.0:8080/files/1" "0.0.0.0" "gw.example.com" := by
  refine ⟨rfl, ?_⟩
  obtain ⟨p, li, url, hl, hu, hfix, hnc, hcc⟩ :=
    c6_url_rewrite gwLinkOk fsOk "gw.example.com" "C:\\logs" "store" "2024-01-15" 1
      (some ["backend"])
      ([c6SuccessRec], [("backend", "http://gw.example.com:8080/files/1")]) rfl
      "backend" "http://gw.example.com:8080/files/1" (by simp)
  have hli : li =
      [("download_url", .str "http://0.0.0.0:8080/files/1"),
       ("file_name", .str "2024-01-15.zip"),
       ("file_size", .num 1024),
       ("compressed", .bool true),
       ("expires_at", .str "2024-01-16T00:00:00Z")] :=
    (Except.ok.inj hl).symm
  subst hli
  have hurl : JVal.str "http://0.0.0.0:8080/files/1" = .str url := Option.some.inj hu
  have hurl' : url = "http://0.0.0.0:8080/files/1" := by
    cases hurl; rfl
  subst hurl'
  exact hcc rfl rfl

/-- **C5.** `download_daily_logs` raises exactly when a total precondition
fails — `select_device` raised, or the selected device has an empty
allowed-roots list — and otherwise returns the full per-kind result
sequence, one entry per requested kind in `{client, backend}`, whatever
errors the individual kinds hit. -/
theorem c5_raises_iff_precondition (gw : Gateway) (fs : FS)
    (host dd dn date : String) (da : Nat) (lts? : Option (List String)) :
    ((∃ e, download_daily_logs gw fs host dd dn da lts? date = .error e) ↔
      (∃ e, gw.select_device dn = .error e)
      ∨ (∃ d, gw.select_device dn = .ok d ∧ d.allowed_roots = []))
    ∧ (∀ res, download_daily_logs gw fs host dd dn da lts? date = .ok res →
        res.1.map RResult.log_type
          = (lts?.getD ["client", "backend"]).filter
              (fun t => t == "client" || t == "backend")) := by
  constructor
  · constructor
    · rintro ⟨e, he⟩
      rcases hs : gw.select_device dn with es | d
      · exact Or.inl ⟨es, rfl⟩
      · rcases hr : d.allowed_roots with _ | ⟨root, rest⟩
        · exact Or.inr ⟨d, rfl, hr⟩
        · simp [download_daily_logs, hs, hr] at he
    · rintro (⟨e, he⟩ | ⟨d, hd', hroots⟩)
      · exact ⟨e, by simp [download_daily_logs, he]⟩
      · exact ⟨"Device has no allowed_roots configured",
          by simp [download_daily_logs, hd', hroots]⟩
  · intro res hok
    obtain ⟨device, root, rest, _, _, hres1, _⟩ := download_ok_inv hok
    rw [hres1]
    exact results_map_log_type _

/-- Witness for C5: a device with an empty allowed-roots list makes the
whole call raise. -/
theorem c5_raises_iff_precondition_witness :
    ∃ e, download_daily_logs gwNoRoots fsOk "gw.example.com" "C:\\logs" "store" 0 none
        "2024-01-15" = .error e :=
  (c5_raises_iff_precondition gwNoRoots fsOk "gw.example.com" "C:\\logs" "store"
      "2024-01-15" 0 none).1.mpr (Or.inr ⟨⟨[]⟩, rfl, rfl⟩)

/-- **C7.** The result sequence contains one entry per requested kind that is
`client` or `backend`, in the caller-specified order; any other requested
kind is silently omitted. -/
theorem c7_results_follow_requested_kinds (gw : Gateway) (fs : FS)
    (host dd dn date : String) (da : Nat) (lts : List String)
    (res : List RResult × List (String × String))
    (hok : download_daily_logs gw fs host dd dn da (some lts) date = .ok res) :
    res.1.map RResult.log_type = lts.filter (fun t => t == "client" || t == "backend") := by
  obtain ⟨device, root, rest, _, _, hres1, _⟩ := download_ok_inv hok
  rw [hres1]
  exact results_map_log_type _

/-- Witness for C7: requesting `["client", "bogus"]` yields exactly one
result, for `client`. -/
theorem c7_results_follow_requested_kinds_witness :
    ∃ res, download_daily_logs gwAbsent fsOk "gw.example.com" "C:\\logs" "store" 0
        (some ["client", "bogus"]) "2024-01-15" = .ok res
      ∧ res.1.map RResult.log_type = ["client"] := by
  refine ⟨_, rfl, ?_⟩
  exact c7_results_follow_requested_kinds gwAbsent fsOk "gw.example.com" "C:\\logs"
    "store" "2024-01-15" 0 ["client", "bogus"] _ rfl

/-- Witness for C8 on a concrete input stream: one malformed line followed
by a well-formed `initialize` request with id `3`. -/
theorem c8_stdio_loop_witness :
    (run_stdio_server tbTrivial
        [.error "Expecting value", .ok (.obj [("method", .str "initialize"), ("id", .num 3)])]).length = 2
    ∧ (∃ resp,
        (run_stdio_server tbTrivial
          [.error "Expecting value", .ok (.obj [("method", .str "initialize"), ("id", .num 3)])])[1]? = some resp
        ∧ responseId resp = some (requestId (.obj [("method", .str "initialize"), ("id", .num 3)])))
    ∧ ((run_stdio_server tbTrivial
          [.error "Expecting value", .ok (.obj [("method", .str "initialize"), ("id", .num 3)])])[0]? =
        some (parseErrorResp "Expecting value")
        ∧ responseId (parseErrorResp "Expecting value") = some JVal.null
        ∧ responseErrorCode (parseErrorResp "Expecting value") = some (.num (-32700))) :=
  ⟨(c8_stdio_loop tbTrivial _).1,
   (c8_stdio_loop tbTrivial _).2.1 1 _ rfl,
   (c8_stdio_loop tbTrivial _).2.2 0 "Expecting value" rfl⟩

/-! ### Lemmas: Windows path joining (C2) -/

lemma findSepIdx_some {l : List Char} {n i : Nat} (h : findSepIdx l n = some i) :
    ∃ c rest, l.drop i = c :: rest ∧ isSep c = true := by
  induction l generalizing n i with
  | nil => simp [findSepIdx] at h
  | cons c0 rest0 ih =>
    cases n with
    | zero =>
      by_cases hs : isSep c0
      · simp [findSepIdx, hs] at h
        subst h
        exact ⟨c0, rest0, rfl, hs⟩
      · simp [findSepIdx, hs] at h
        obtain ⟨j, hj, rfl⟩ := h
        obtain ⟨c, rest, hdrop, hsep⟩ := ih hj
        exact ⟨c, rest, by simpa using hdrop, hsep⟩
    | succ n =>
      simp [findSepIdx] at h
      obtain ⟨j, hj, rfl⟩ := h
      obtain ⟨c, rest, hdrop, hsep⟩ := ih hj
      exact ⟨c, rest, by simpa using hdrop, hsep⟩

lemma uncSplit_eq (p : List Char) :
    uncSplit p = (p, [], [])
    ∨ ∃ j c rest, p.drop j = c :: rest ∧ isSep c = true
        ∧ uncSplit p = (p.take j, [c], p.drop (j + 1)) := by
  simp only [uncSplit]
  rcases h1 : findSepIdx p (if isUncExtPrefix p then 8 else 2) with _ | i
  · exact Or.inl rfl
  · dsimp only
    rcases h2 : findSepIdx p (i + 1) with _ | j
    · exact Or.inl rfl
    · obtain ⟨c, rest, hdrop, hsep⟩ := findSepIdx_some h2
      exact Or.inr ⟨j, c, rest, hdrop, hsep, by simp [hdrop]⟩

lemma uncSplit_partition (p : List Char) :
    (uncSplit p).1 ++ (uncSplit p).2.1 ++ (uncSplit p).2.2 = p := by
  rcases uncSplit_eq p with h | ⟨j, c, rest, hdrop, _, h⟩
  · rw [h]; simp
  · rw [h]
    dsimp only
    have hd1 : p.drop (j + 1) = rest := by
      rw [← List.drop_drop, hdrop]
      rfl
    rw [List.append_assoc, hd1]
    show p.take j ++ (c :: rest) = p
    rw [← hdrop, List.take_append_drop]

lemma uncSplit_root_sep (p : List Char) (h : (uncSplit p).2.1 ≠ []) :
    ∃ c, (uncSplit p).2.1 = [c] ∧ isSep c = true := by
  rcases uncSplit_eq p with he | ⟨j, c, rest, hdrop, hsep, he⟩
  · rw [he] at h; simp at h
  · rw [he]
    exact ⟨c, rfl, hsep⟩

lemma uncSplit_no_root_no_path (p : List Char) (hroot : (uncSplit p).2.1 = []) :
    (uncSplit p).2.2 = [] := by
  rcases uncSplit_eq p with he | ⟨j, c, rest, hdrop, hsep, he⟩
  · rw [he]
  · rw [he] at hroot
    simp at hroot

lemma splitrootL_partition (p : List Char) :
    (splitrootL p).1 ++ (splitrootL p).2.1 ++ (splitrootL p).2.2 = p := by
  unfold splitrootL
  rcases p with _ | ⟨c1, _ | ⟨c2, rest2⟩⟩
  · rfl
  · dsimp only
    split <;> rfl
  · dsimp only
    by_cases hs1 : isSep c1
    · rw [if_pos hs1]
      by_cases hs2 : isSep c2
      · rw [if_pos hs2]
        exact uncSplit_partition _
      · rw [if_neg hs2]; rfl
    · rw [if_neg hs1]
      by_cases hco : c2 = ':'
      · rw [if_pos hco]
        rcases rest2 with _ | ⟨c3, rest3⟩
        · rfl
        · dsimp only
          split <;> rfl
      · rw [if_neg hco]; rfl

lemma splitrootL_root_sep (p : List Char) (h : (splitrootL p).2.1 ≠ []) :
    ∃ c, (splitrootL p).2.1 = [c] ∧ isSep c = true := by
  unfold splitrootL at h ⊢
  rcases p with _ | ⟨c1, _ | ⟨c2, rest2⟩⟩
  · simp at h
  · dsimp only at h ⊢
    by_cases hs1 : isSep c1
    · rw [if_pos hs1] at h ⊢
      exact ⟨c1, rfl, hs1⟩
    · rw [if_neg hs1] at h
      simp at h
  · dsimp only at h ⊢
    by_cases hs1 : isSep c1
    · rw [if_pos hs1] at h ⊢
      by_cases hs2 : isSep c2
      · rw [if_pos hs2] at h ⊢
        exact uncSplit_root_sep _ h
      · rw [if_neg hs2] at h ⊢
        exact ⟨c1, rfl, hs1⟩
    · rw [if_neg hs1] at h ⊢
      by_cases hco : c2 = ':'
      · rw [if_pos hco] at h ⊢
        rcases rest2 with _ | ⟨c3, rest3⟩
        · simp at h
        · dsimp only at h ⊢
          by_cases hs3 : isSep c3
          · rw [if_pos hs3] at h ⊢
            exact ⟨c3, rfl, hs3⟩
          · rw [if_neg hs3] at h
            simp at h
      · rw [if_neg hco] at h
        simp at h

lemma splitrootL_drive_colon (p : List Char)
    (hroot : (splitrootL p).2.1 = []) (hpath : (splitrootL p).2.2 ≠ []) :
    (splitrootL p).1 = [] ∨ colonSepEnd (splitrootL p).1 = true := by
  unfold splitrootL at hroot hpath ⊢
  rcases p with _ | ⟨c1, _ | ⟨c2, rest2⟩⟩
  · exact Or.inl rfl
  · dsimp only at hroot hpath ⊢
    by_cases hs1 : isSep c1
    · rw [if_pos hs1] at hroot
      simp at hroot
    · rw [if_neg hs1]
      exact Or.inl rfl
  · dsimp only at hroot hpath ⊢
    by_cases hs1 : isSep c1
    · by_cases hs2 : isSep c2
      · rw [if_pos hs1, if_pos hs2] at hroot hpath ⊢
        exact absurd (uncSplit_no_root_no_path _ hroot) hpath
      · rw [if_pos hs1, if_neg hs2] at hroot
        simp at hroot
    · by_cases hco : c2 = ':'
      · rw [if_neg hs1, if_pos hco] at hroot hpath ⊢
        rcases rest2 with _ | ⟨c3, rest3⟩
        · simp at hpath
        · dsimp only at hroot hpath ⊢
          by_cases hs3 : isSep c3
          · rw [if_pos hs3] at hroot
            simp at hroot
          · rw [if_neg hs3]
            refine Or.inr ?_
            subst hco
            rfl
      · rw [if_neg hs1, if_neg hco]
        exact Or.inl rfl

lemma sepEnd_rstripSepsL (l : List Char) : sepEnd (rstripSepsL l) = false := by
  unfold sepEnd rstripSepsL
  rw [List.getLast?_reverse]
  rcases hh : (l.reverse.dropWhile (fun c => isSep c)).head? with _ | c
  · rfl
  · have h2 := List.head?_dropWhile_not (fun c => isSep c) l.reverse
    rw [hh] at h2
    simpa using h2

lemma sepEnd_append {x q : List Char} (hq : q ≠ []) : sepEnd (x ++ q) = sepEnd q := by
  unfold sepEnd
  rw [List.getLast?_append_of_ne_nil _ hq]

lemma sepEnd_append_cons (x : List Char) (c : Char) {q : List Char} (hq : q ≠ []) :
    sepEnd (x ++ c :: q) = sepEnd q := by
  have hx : x ++ c :: q = (x ++ [c]) ++ q := by simp
  rw [hx, sepEnd_append hq]

lemma isSep_false_of_dateChar {c : Char} (h : c.isDigit ∨ c = '-') : isSep c = false := by
  rcases h with h | rfl
  · have h1 : c ≠ '\\' := by rintro rfl; exact absurd h (by decide)
    have h2 : c ≠ '/' := by rintro rfl; exact absurd h (by decide)
    simp [isSep, h1, h2]
  · decide

lemma ne_colon_of_dateChar {c : Char} (h : c.isDigit ∨ c = '-') : c ≠ ':' := by
  rcases h with h | rfl
  · rintro rfl; exact absurd h (by decide)
  · decide

lemma splitrootL_plain_one {c1 : Char} (h1 : isSep c1 = false) :
    splitrootL [c1] = ([], [], [c1]) := by
  simp [splitrootL, h1]

lemma splitrootL_plain_cons2 (c1 c2 : Char) (rest : List Char)
    (h1 : isSep c1 = false) (h2 : c2 ≠ ':') :
    splitrootL (c1 :: c2 :: rest) = ([], [], c1 :: c2 :: rest) := by
  simp [splitrootL, h1, h2]

lemma splitrootL_plain_date {l : List Char} (hd : ∀ c ∈ l, c.isDigit ∨ c = '-') :
    splitrootL l = ([], [], l) := by
  rcases l with _ | ⟨c1, _ | ⟨c2, rest⟩⟩
  · rfl
  · exact splitrootL_plain_one (isSep_false_of_dateChar (hd c1 (by simp)))
  · exact splitrootL_plain_cons2 _ _ _ (isSep_false_of_dateChar (hd c1 (by simp)))
      (ne_colon_of_dateChar (hd c2 (by simp)))

lemma splitrootL_plain_date_zip {l : List Char} (hd : ∀ c ∈ l, c.isDigit ∨ c = '-') :
    splitrootL (l ++ ".zip".data) = ([], [], l ++ ".zip".data) := by
  rcases l with _ | ⟨c1, _ | ⟨c2, rest⟩⟩
  · rfl
  · have h := splitrootL_plain_cons2 c1 '.' ['z', 'i', 'p']
      (isSep_false_of_dateChar (hd c1 (by simp))) (by decide)
    simpa using h
  · have h := splitrootL_plain_cons2 c1 c2 (rest ++ ".zip".data)
      (isSep_false_of_dateChar (hd c1 (by simp)))
      (ne_colon_of_dateChar (hd c2 (by simp)))
    simpa using h

lemma joinOneL_plain (d r pa q : List Char) (hq : splitrootL q = ([], [], q)) :
    joinOneL (d, r, pa) q
      = (d, r, pa ++ (if pa ≠ [] ∧ sepEnd pa = false then ['\\'] else []) ++ q) := by
  simp [joinOneL, hq]

lemma joinOneL_plain_nonempty (d r pa q : List Char) (hq : splitrootL q = ([], [], q))
    (hpa : pa ≠ []) (hpe : sepEnd pa = false) :
    joinOneL (d, r, pa) q = (d, r, pa ++ '\\' :: q) := by
  rw [joinOneL_plain _ _ _ _ hq, if_pos ⟨hpa, hpe⟩]
  simp

lemma joinOneL_plain_empty (d r q : List Char) (hq : splitrootL q = ([], [], q)) :
    joinOneL (d, r, []) q = (d, r, q) := by
  rw [joinOneL_plain _ _ _ _ hq]
  simp

lemma ntjoinL_three (bl q1 q2 q3 : List Char)
    (hbase : sepEnd bl = false)
    (h1 : splitrootL q1 = ([], [], q1)) (h1ne : q1 ≠ []) (h1e : sepEnd q1 = false)
    (h2 : splitrootL q2 = ([], [], q2)) (h2ne : q2 ≠ []) (h2e : sepEnd q2 = false)
    (h3 : splitrootL q3 = ([], [], q3))
    (hgood : (splitrootL bl).2.2 ≠ []
      ∨ ((splitrootL bl).1 ≠ [] ∧ colonSepEnd (splitrootL bl).1 = false)) :
    ntjoinL bl [q1, q2, q3] = bl ++ '\\' :: (q1 ++ '\\' :: (q2 ++ '\\' :: q3)) := by
  rcases hsp : splitrootL bl with ⟨d, rt, pa⟩
  have hpart : d ++ rt ++ pa = bl := by
    have h := splitrootL_partition bl
    rw [hsp] at h
    exact h
  rw [hsp] at hgood
  dsimp only at hgood
  simp only [ntjoinL, hsp, List.foldl_cons, List.foldl_nil]
  by_cases hpa : pa = []
  · subst hpa
    rcases hgood with hg | ⟨hdne, hdce⟩
    · simp at hg
    · have hrt : rt = [] := by
        by_contra hrtne
        obtain ⟨c, hcr, hcsep⟩ := splitrootL_root_sep bl (by rw [hsp]; exact hrtne)
        rw [hsp] at hcr
        dsimp only at hcr
        have hlast : sepEnd bl = true := by
          unfold sepEnd
          rw [← hpart, hcr]
          rw [List.append_nil, List.getLast?_append_of_ne_nil _ (by simp : [c] ≠ [])]
          simpa using hcsep
        rw [hbase] at hlast
        cases hlast
      subst hrt
      rw [joinOneL_plain_empty _ _ _ h1,
        joinOneL_plain_nonempty _ _ _ _ h2 h1ne h1e,
        joinOneL_plain_nonempty _ _ _ _ h3 (by simp)
          (by rw [sepEnd_append_cons _ _ h2ne]; exact h2e)]
      rw [if_pos ⟨by simp, rfl, hdne, hdce⟩]
      rw [← hpart]
      simp
  · have hsepa : sepEnd pa = false := by
      have h : sepEnd bl = sepEnd pa := by
        conv_lhs => rw [← hpart]
        rw [List.append_assoc, sepEnd_append (show rt ++ pa ≠ [] by simp [hpa]),
          sepEnd_append hpa]
      rw [← h]; exact hbase
    rw [joinOneL_plain_nonempty _ _ _ _ h1 hpa hsepa,
      joinOneL_plain_nonempty _ _ _ _ h2 (by simp)
        (by rw [sepEnd_append_cons _ _ h1ne]; exact h1e),
      joinOneL_plain_nonempty _ _ _ _ h3 (by simp)
        (by rw [sepEnd_append_cons _ _ h2ne]; exact h2e)]
    by_cases hrt : rt = []
    · subst hrt
      have hdc := splitrootL_drive_colon bl (by rw [hsp]) (by rw [hsp]; exact hpa)
      rw [hsp] at hdc
      dsimp only at hdc
      rcases hdc with hd0 | hdc
      · subst hd0
        rw [if_neg (by simp)]
        rw [← hpart]
        simp
      · rw [if_neg (by simp [hdc])]
        rw [← hpart]
        simp
    · rw [if_neg (by simp [hrt])]
      rw [← hpart]
      simp

/-- **C2 (amended).** For every allowed root whose stripped base satisfies
`goodBase` (nonempty and not a bare drive like `C:`) and every date string of
digits and dashes, the derived remote path is
`{base}\Client\logs\{date}` for `client`, `{base}\Backend\log\{date}.zip`
for `backend` with day offset ≥ 1, and `{base}\Backend\log\{date}` (no
`.zip`) for offset 0, joined with backslashes. (For the excluded bases
`ntpath.join` inserts no separator after the drive — see the
counterexample.) -/
theorem c2_amended_path_derivation (root date : String) (days_ago : Nat)
    (hdate : ∀ c ∈ date.data, c.isDigit ∨ c = '-')
    (hgood : goodBase (rstripSeps root)) :
    derive_path (rstripSeps root) date days_ago "client"
      = some (rstripSeps root ++ "\\Client\\logs\\" ++ date)
    ∧ (1 ≤ days_ago → derive_path (rstripSeps root) date days_ago "backend"
        = some (rstripSeps root ++ "\\Backend\\log\\" ++ date ++ ".zip"))
    ∧ (days_ago = 0 → derive_path (rstripSeps root) date days_ago "backend"
        = some (rstripSeps root ++ "\\Backend\\log\\" ++ date)) := by
  have hbase : sepEnd (rstripSeps root).data = false := sepEnd_rstripSepsL root.data
  refine ⟨?_, fun hda => ?_, fun hda => ?_⟩
  · rw [show derive_path (rstripSeps root) date days_ago "client"
        = some (ntjoin (rstripSeps root) ["Client", "logs", date]) by simp [derive_path]]
    congr 1
    apply String.ext
    show ntjoinL (rstripSeps root).data ["Client".data, "logs".data, date.data]
      = (rstripSeps root ++ "\\Client\\logs\\" ++ date).data
    rw [ntjoinL_three ((rstripSeps root).data) ("Client".data) ("logs".data) (date.data)
      hbase rfl (by decide) rfl rfl (by decide) rfl
      (splitrootL_plain_date hdate) hgood]
    simp [String.data_append]
  · rw [show derive_path (rstripSeps root) date days_ago "backend"
        = some (ntjoin (rstripSeps root) ["Backend", "log", date ++ ".zip"]) by
          simp [derive_path, hda]]
    congr 1
    apply String.ext
    show ntjoinL (rstripSeps root).data ["Backend".data, "log".data, (date ++ ".zip").data]
      = (rstripSeps root ++ "\\Backend\\log\\" ++ date ++ ".zip").data
    rw [show (date ++ ".zip").data = date.data ++ ".zip".data from String.data_append _ _]
    rw [ntjoinL_three ((rstripSeps root).data) ("Backend".data) ("log".data)
      (date.data ++ ".zip".data) hbase rfl (by decide) rfl rfl (by decide) rfl
      (splitrootL_plain_date_zip hdate) hgood]
    simp [String.data_append]
  · have hda0 : ¬ 1 ≤ days_ago := by omega
    rw [show derive_path (rstripSeps root) date days_ago "backend"
        = some (ntjoin (rstripSeps root) ["Backend", "log", date]) by
          simp [derive_path, hda0]]
    congr 1
    apply String.ext
    show ntjoinL (rstripSeps root).data ["Backend".data, "log".data, date.data]
      = (rstripSeps root ++ "\\Backend\\log\\" ++ date).data
    rw [ntjoinL_three ((rstripSeps root).data) ("Backend".data) ("log".data) (date.data)
      hbase rfl (by decide) rfl rfl (by decide) rfl
      (splitrootL_plain_date hdate) hgood]
    simp [String.data_append]

/-- Witness for C2 (amended) at a concrete root and date. -/
theorem c2_amended_path_derivation_witness :
    derive_path (rstripSeps "D:\\CXJPos\\") "2024-01-15" 1 "client"
      = some (rstripSeps "D:\\CXJPos\\" ++ "\\Client\\logs\\" ++ "2024-01-15")
    ∧ derive_path (rstripSeps "D:\\CXJPos\\") "2024-01-15" 1 "backend"
      = some (rstripSeps "D:\\CXJPos\\" ++ "\\Backend\\log\\" ++ "2024-01-15" ++ ".zip") :=
  ⟨(c2_amended_path_derivation "D:\\CXJPos\\" "2024-01-15" 1 (by decide) (by decide)).1,
   (c2_amended_path_derivation "D:\\CXJPos\\" "2024-01-15" 1 (by decide) (by decide)).2.1
     (by decide)⟩

/-- Counterexample to C2 as stated: for the allowed root `C:/` (stripped
base `C:`, a bare drive), `ntpath.join` produces the drive-relative path
`C:Client\logs\2024-01-15`, not `C:\Client\logs\2024-01-15` as the
universally quantified claim asserts. -/
theorem c2_counterexample :
    derive_path (rstripSeps "C:/") "2024-01-15" 0 "client"
      = some "C:Client\\logs\\2024-01-15"
    ∧ derive_path (rstripSeps "C:/") "2024-01-15" 0 "client"
      ≠ some (rstripSeps "C:/" ++ "\\Client\\logs\\" ++ "2024-01-15") := by
  constructor
  · rfl
  · decide

end LogMCP
